import Mathlib

/-!
Verification of the DPQ (Dog Personality Questionnaire) scoring core of the
PN1 backend, shallowly embedded from `dpq/dpq.py` together with the input
validators in `app/services/dpq_service.py` and `dpq/api_handler.py`.

Modelling conventions:
* A Python dict keyed by question number is embedded as an association list
  `List (Nat × Int)` in insertion order with the first binding of a key the
  visible one (Python dicts have unique keys, so well-formed inputs carry a
  `Nodup` hypothesis on the key list).
* Python floats are embedded as exact rationals `ℚ`; `np.mean` becomes
  `sum / length` on `ℚ`.
* Raising an exception is embedded as returning `Except.error`.
-/

set_option maxHeartbeats 1000000

namespace DPQ

/-- A facet of the scoring structure: its display name, the ids of its
questionnaire items and the subset of those ids that is reverse coded
(`dpq.py`, values of the inner dicts of `scoring_structure`). -/
structure Facet where
  name : String
  items : List Nat
  reverse : List Nat
  deriving DecidableEq, Repr

/-- A factor of the scoring structure: its display name and its facets
(`dpq.py`, one top-level entry of `scoring_structure`). -/
structure Factor where
  name : String
  facets : List Facet
  deriving DecidableEq, Repr

/-- Facet `"Fear of People"` of `scoring_structure`. -/
def fearOfPeople : Facet := { name := "Fear of People", items := [1, 6, 27], reverse := [1] }

/-- Facet `"Nonsocial Fear"` of `scoring_structure`. -/
def nonsocialFear : Facet := { name := "Nonsocial Fear", items := [3, 11, 22], reverse := [11, 22] }

/-- Facet `"Fear of Dogs"` of `scoring_structure`. -/
def fearOfDogs : Facet := { name := "Fear of Dogs", items := [13, 21, 42], reverse := [] }

/-- Facet `"Fear of Handling"` of `scoring_structure`. -/
def fearOfHandling : Facet := { name := "Fear of Handling", items := [16, 35, 44], reverse := [] }

/-- Facet `"General Aggression"` of `scoring_structure`. -/
def generalAggression : Facet := { name := "General Aggression", items := [7, 18, 40], reverse := [18] }

/-- Facet `"Situational Aggression"` of `scoring_structure`. -/
def situationalAggression : Facet :=
  { name := "Situational Aggression", items := [25, 30, 36], reverse := [] }

/-- Facet `"Excitability"` of `scoring_structure`. -/
def excitability : Facet := { name := "Excitability", items := [15, 31, 41], reverse := [41] }

/-- Facet `"Playfulness"` of `scoring_structure`. -/
def playfulness : Facet := { name := "Playfulness", items := [9, 17, 33], reverse := [9] }

/-- Facet `"Active Engagement"` of `scoring_structure`. -/
def activeEngagement : Facet := { name := "Active Engagement", items := [4, 14, 24], reverse := [4] }

/-- Facet `"Companionability"` of `scoring_structure`. -/
def companionability : Facet := { name := "Companionability", items := [20, 26, 37], reverse := [26] }

/-- Facet `"Trainability"` of `scoring_structure`. -/
def trainability : Facet := { name := "Trainability", items := [29, 38, 43], reverse := [29, 38] }

/-- Facet `"Controllability"` of `scoring_structure`. -/
def controllability : Facet := { name := "Controllability", items := [5, 10, 32], reverse := [10] }

/-- Facet `"Aggression towards Dogs"` of `scoring_structure`. -/
def aggressionTowardsDogs : Facet :=
  { name := "Aggression towards Dogs", items := [2, 19, 34], reverse := [19, 34] }

/-- Facet `"Prey Drive"` of `scoring_structure`. -/
def preyDrive : Facet := { name := "Prey Drive", items := [8, 23, 39], reverse := [] }

/-- Facet `"Dominance over Other Dogs"` of `scoring_structure`. -/
def dominanceOverOtherDogs : Facet :=
  { name := "Dominance over Other Dogs", items := [12, 28, 45], reverse := [28] }

/-- Factor `"Factor 1 - Fearfulness"` of `scoring_structure`. -/
def factor1 : Factor :=
  { name := "Factor 1 - Fearfulness",
    facets := [fearOfPeople, nonsocialFear, fearOfDogs, fearOfHandling] }

/-- Factor `"Factor 2 - Aggression towards People"` of `scoring_structure`. -/
def factor2 : Factor :=
  { name := "Factor 2 - Aggression towards People",
    facets := [generalAggression, situationalAggression] }

/-- Factor `"Factor 3 - Activity/Excitability"` of `scoring_structure`. -/
def factor3 : Factor :=
  { name := "Factor 3 - Activity/Excitability",
    facets := [excitability, playfulness, activeEngagement, companionability] }

/-- Factor `"Factor 4 - Responsiveness to Training"` of `scoring_structure`. -/
def factor4 : Factor :=
  { name := "Factor 4 - Responsiveness to Training",
    facets := [trainability, controllability] }

/-- Factor `"Factor 5 - Aggression towards Animals"` of `scoring_structure`. -/
def factor5 : Factor :=
  { name := "Factor 5 - Aggression towards Animals",
    facets := [aggressionTowardsDogs, preyDrive, dominanceOverOtherDogs] }

/-- The fixed scoring structure of the DPQ Short Form
(`DogPersonalityQuestionnaire.__init__`, `self.scoring_structure`). -/
def scoring_structure : List Factor := [factor1, factor2, factor3, factor4, factor5]

/-- All facets, in declaration order (iteration order of the nested loops of
`score_assessment`). -/
def allFacets : List Facet := scoring_structure.flatMap (fun f => f.facets)

/-- All reverse-coded item ids in the order the nested loops of
`score_assessment` visit them. -/
def allReverseItems : List Nat := allFacets.flatMap (fun fc => fc.reverse)

/-- Lookup of a question id in a response dict (`item in responses` /
`responses[item]`): the first binding of the key, if any. -/
def lookupR (k : Nat) : List (Nat × Int) → Option Int
  | [] => none
  | p :: rest => if p.1 = k then some p.2 else lookupR k rest

/-- Lookup of a name in a score dict (`facet_scores[name]` etc.). -/
def lookupS (k : String) : List (String × ℚ) → Option ℚ
  | [] => none
  | p :: rest => if p.1 = k then some p.2 else lookupS k rest

/-- Lookup of a name in the personality-profile dict. -/
def lookupP (k : String) : List (String × String) → Option String
  | [] => none
  | p :: rest => if p.1 = k then some p.2 else lookupP k rest

/-- One pass of the reverse-coding loop body of `score_assessment`:
`if item in processed_responses: processed_responses[item] = 8 - processed_responses[item]`. -/
def flipItem (acc : List (Nat × Int)) (item : Nat) : List (Nat × Int) :=
  acc.map (fun p => if p.1 = item then (p.1, 8 - p.2) else p)

/-- The reverse-coding phase of `score_assessment` (lines 195–201 of
`dpq.py`): a working copy of the responses in which every id listed in some
facet's `reverse` list has been replaced by `8 - v`. -/
def reverseCode (responses : List (Nat × Int)) : List (Nat × Int) :=
  allReverseItems.foldl flipItem responses

/-- Facet-score computation of `score_assessment` (lines 203–212): the mean
of the processed values of the facet's items present in the working copy,
defaulting to `4.0` when none is present. -/
def facet_score (processed : List (Nat × Int)) (fc : Facet) : ℚ :=
  let valid_scores := fc.items.filterMap (fun item => lookupR item processed)
  if valid_scores.isEmpty then 4 else (valid_scores.sum : ℚ) / valid_scores.length

/-- The `facet_scores` dict built by `score_assessment`: one entry per facet,
in declaration order. -/
def facet_scores_of (responses : List (Nat × Int)) : List (String × ℚ) :=
  scoring_structure.flatMap
    (fun f => f.facets.map (fun fc => (fc.name, facet_score (reverseCode responses) fc)))

/-- Factor-score computation of `score_assessment` (lines 214–222): the mean
of the factor's facet scores found in the `facet_scores` dict, defaulting to
`4.0` when none is found. -/
def factor_score (facetScores : List (String × ℚ)) (f : Factor) : ℚ :=
  let valid := (f.facets.map (fun fc => fc.name)).filterMap (fun n => lookupS n facetScores)
  if valid.isEmpty then 4 else valid.sum / valid.length

/-- The `factor_scores` dict built by `score_assessment`: one entry per
factor, in declaration order. -/
def factor_scores_of (responses : List (Nat × Int)) : List (String × ℚ) :=
  scoring_structure.map (fun f => (f.name, factor_score (facet_scores_of responses) f))

/-- Score lookup by name with a dummy default; in the source the keys looked
up are always present, so the default is never reached (Python would raise
`KeyError` otherwise). -/
def getScore (scores : List (String × ℚ)) (n : String) : ℚ :=
  (lookupS n scores).getD 0

/-- Level classification of `_generate_personality_profile` (lines 246–253). -/
def levelOf (s : ℚ) : String :=
  if s ≥ 5.5 then "High" else if s ≥ 4.5 then "Moderate" else "Low"

/-- The factor-name → dominant-trait tag table of
`_generate_personality_profile` (lines 256–266), in source order. -/
def tagDefs : List (String × String) :=
  [ ("Factor 1 - Fearfulness", "Cautious/Fearful"),
    ("Factor 2 - Aggression towards People", "Protective/Aggressive"),
    ("Factor 3 - Activity/Excitability", "Energetic/Excitable"),
    ("Factor 4 - Responsiveness to Training", "Trainable/Responsive"),
    ("Factor 5 - Aggression towards Animals", "Animal-Reactive") ]

/-- The `Dominant_Traits` string of `_generate_personality_profile`
(lines 256–271): the comma-joined tags of the factors scoring at least 5.0,
or `"Balanced"` when none qualifies. -/
def dominantTraits (factorScores : List (String × ℚ)) : String :=
  let tags := tagDefs.filterMap
    (fun p => if getScore factorScores p.1 ≥ 5 then some p.2 else none)
  String.intercalate ", " (if tags.isEmpty then ["Balanced"] else tags)

/-- Embedding of `_generate_personality_profile` (lines 240–273): one level string per
factor, in factor iteration order, followed by the `Dominant_Traits` entry. -/
def generate_personality_profile (factorScores : List (String × ℚ)) : List (String × String) :=
  factorScores.map (fun p => (p.1, levelOf p.2)) ++ [("Dominant_Traits", dominantTraits factorScores)]

/-- Embedding of `_calculate_bias_indicators` (lines 275–304): the fourteen named bias
indicators, as exact rational arithmetic over the factor and facet scores. -/
def calculate_bias_indicators (factorScores facetScores : List (String × ℚ)) :
    List (String × ℚ) :=
  [ ("fearfulness_bias", getScore factorScores "Factor 1 - Fearfulness" / 7),
    ("aggression_bias", (getScore factorScores "Factor 2 - Aggression towards People" +
        getScore factorScores "Factor 5 - Aggression towards Animals") / 14),
    ("excitability_bias", getScore factorScores "Factor 3 - Activity/Excitability" / 7),
    ("trainability_bias", getScore factorScores "Factor 4 - Responsiveness to Training" / 7),
    ("social_confidence", (7 - getScore facetScores "Fear of People") / 7),
    ("dog_sociability", (7 - getScore facetScores "Fear of Dogs" +
        getScore facetScores "Playfulness") / 14),
    ("environmental_adaptability", (7 - getScore facetScores "Nonsocial Fear") / 7),
    ("handling_tolerance", (7 - getScore facetScores "Fear of Handling") / 7),
    ("attention_seeking", getScore facetScores "Companionability" / 7),
    ("activity_level", (getScore facetScores "Excitability" +
        getScore facetScores "Active Engagement") / 14),
    ("impulse_control", getScore facetScores "Controllability" / 7),
    ("territorial_tendency", getScore facetScores "General Aggression" / 7),
    ("resource_guarding", getScore facetScores "Situational Aggression" / 7),
    ("prey_drive", getScore facetScores "Prey Drive" / 7) ]

/-- The numeric fields of the `DPQResults` dataclass; `dog_id` and
`assessment_date` are caller-stamped metadata and carry no scoring content. -/
structure DPQResults where
  raw_scores : List (Nat × Int)
  factor_scores : List (String × ℚ)
  facet_scores : List (String × ℚ)
  personality_profile : List (String × String)
  bias_indicators : List (String × ℚ)
  deriving DecidableEq, Repr

/-- Embedding of `DogPersonalityQuestionnaire.score_assessment` (lines 192–238
of `dpq.py`). -/
def score_assessment (responses : List (Nat × Int)) : DPQResults :=
  { raw_scores := responses
    factor_scores := factor_scores_of responses
    facet_scores := facet_scores_of responses
    personality_profile := generate_personality_profile (factor_scores_of responses)
    bias_indicators :=
      calculate_bias_indicators (factor_scores_of responses) (facet_scores_of responses) }

/-- Embedding of `DPQService._validate_responses` (`dpq_service.py`, lines 148–169):
rejects an empty response dict, and rejects any response value outside the
set `{1, 2, 3, 4, 5}` it checks against. -/
def validate_responses (responses : List (Nat × Int)) : Bool :=
  if responses.isEmpty then false
  else responses.all (fun p => p.2 = 1 ∨ p.2 = 2 ∨ p.2 = 3 ∨ p.2 = 4 ∨ p.2 = 5)

/-- The validation-then-score flow of `DPQService.process_assessment`
(`dpq_service.py`, lines 48–66): when `_validate_responses` fails a
`ValueError` is raised before any scoring; otherwise the assessment is
handed to the DPQ scorer. -/
def service_process_assessment (responses : List (Nat × Int)) : Except String DPQResults :=
  if validate_responses responses then Except.ok (score_assessment responses)
  else Except.error "Invalid response format or missing required responses"

/-- The validation loop of `DPQAPIHandler._run_dpq_analysis`
(`api_handler.py`, lines 102–107): raise on the first entry whose question
number is outside 1–45 or whose value is outside 1–7. -/
def check_response_entries : List (Nat × Int) → Except String Unit
  | [] => Except.ok ()
  | p :: rest =>
    if ¬(1 ≤ p.1 ∧ p.1 ≤ 45) then Except.error "Invalid question number"
    else if ¬(1 ≤ p.2 ∧ p.2 ≤ 7) then Except.error "Invalid response value"
    else check_response_entries rest

/-- Embedding of `DPQAPIHandler._run_dpq_analysis` (`api_handler.py`, lines 92–118):
validate every entry, then score the assessment. -/
def run_dpq_analysis (responses : List (Nat × Int)) : Except String DPQResults :=
  match check_response_entries responses with
  | Except.error msg => Except.error msg
  | Except.ok _ => Except.ok (score_assessment responses)

/-- A well-formed caller input: a response dict (unique keys) whose keys lie
in 1..45 and whose values lie in 1..7. -/
def ValidResponses (responses : List (Nat × Int)) : Prop :=
  (responses.map Prod.fst).Nodup ∧
    ∀ p ∈ responses, 1 ≤ p.1 ∧ p.1 ≤ 45 ∧ 1 ≤ p.2 ∧ p.2 ≤ 7

instance : DecidablePred ValidResponses := fun r => by
  unfold ValidResponses; infer_instance

/-- The fully neutral questionnaire: every one of the 45 items answered 4. -/
def allFours : List (Nat × Int) := (List.range 45).map (fun i => (i + 1, 4))

/-- The facet score as §4.2 of the spec words it: the mean over the facet's
items present in the input of the value with the facet's own reverse coding
applied, defaulting to 4.0 when no item of the facet is present. Stated
independently of the scorer's global reverse-coding pass, to be compared
with it. -/
def specFacetScore (responses : List (Nat × Int)) (fc : Facet) : ℚ :=
  let vals := fc.items.filterMap (fun i =>
    (lookupR i responses).map (fun v => if i ∈ fc.reverse then 8 - v else v))
  if vals.isEmpty then 4 else (vals.sum : ℚ) / vals.length

/-- The factor score as §4.2 of the spec words it: the unweighted mean of
the factor's facet scores. -/
def specFactorScore (responses : List (Nat × Int)) (f : Factor) : ℚ :=
  (f.facets.map (fun fc => specFacetScore responses fc)).sum / f.facets.length

/-! ## Helper lemmas about lookup and the reverse-coding fold -/

theorem flipItem_eq (acc : List (Nat × Int)) (item : Nat) :
    flipItem acc item = acc.map (fun p => (p.1, if p.1 = item then 8 - p.2 else p.2)) := by
  unfold flipItem
  apply List.map_congr_left
  intro p _
  by_cases h : p.1 = item <;> simp [h]

theorem lookupR_map_flip (l : List (Nat × Int)) (item k : Nat) :
    lookupR k (l.map (fun p => (p.1, if p.1 = item then 8 - p.2 else p.2))) =
      (lookupR k l).map (fun v => if k = item then 8 - v else v) := by
  induction l with
  | nil => rfl
  | cons p rest ih =>
    by_cases h : p.1 = k
    · subst h; simp [lookupR, ih]
    · simp [lookupR, h, ih]

theorem lookupR_flipItem (acc : List (Nat × Int)) (item k : Nat) :
    lookupR k (flipItem acc item) =
      if k = item then (lookupR k acc).map (fun v => 8 - v) else lookupR k acc := by
  rw [flipItem_eq, lookupR_map_flip]
  by_cases h : k = item
  · simp [h]
  · simp only [h, if_false]
    cases lookupR k acc <;> simp [h]

theorem lookupR_foldl_flip (l : List Nat) (acc : List (Nat × Int)) (k : Nat) :
    lookupR k (l.foldl flipItem acc) =
      (lookupR k acc).map (fun v => if l.count k % 2 = 1 then 8 - v else v) := by
  induction l generalizing acc with
  | nil =>
    simp only [List.foldl_nil, List.count_nil]
    cases lookupR k acc <;> simp
  | cons a l ih =>
    rw [List.foldl_cons, ih, lookupR_flipItem]
    by_cases hak : k = a
    · subst hak
      rw [if_pos rfl, List.count_cons_self]
      cases lookupR k acc with
      | none => rfl
      | some v =>
        rcases Nat.even_or_odd (l.count k) with he | ho
        · have h0 : l.count k % 2 = 0 := Nat.even_iff.mp he
          have h1 : (l.count k + 1) % 2 = 1 := by omega
          simp [h0, h1]
        · have h0 : l.count k % 2 = 1 := Nat.odd_iff.mp ho
          have h1 : (l.count k + 1) % 2 = 0 := by omega
          simp [h0, h1]
    · rw [if_neg hak]
      have hc : List.count k (a :: l) = List.count k l := by
        simp [List.count_cons, hak, Ne.symm hak]
      rw [hc]

theorem allReverseItems_nodup : allReverseItems.Nodup := by decide

theorem lookupR_reverseCode (r : List (Nat × Int)) (k : Nat) :
    lookupR k (reverseCode r) =
      (lookupR k r).map (fun v => if k ∈ allReverseItems then 8 - v else v) := by
  rw [reverseCode, lookupR_foldl_flip]
  by_cases h : k ∈ allReverseItems
  · rw [List.count_eq_one_of_mem allReverseItems_nodup h]
    simp [h]
  · rw [List.count_eq_zero_of_not_mem h]
    simp [h]

theorem lookupR_mem (r : List (Nat × Int)) (k : Nat) (v : Int)
    (h : lookupR k r = some v) : (k, v) ∈ r := by
  induction r with
  | nil => simp [lookupR] at h
  | cons p rest ih =>
    by_cases hp : p.1 = k
    · simp only [lookupR, hp, if_pos rfl] at h
      cases h
      rw [← hp]
      simp
    · simp only [lookupR, hp, if_neg, ite_false] at h
      exact List.mem_cons_of_mem _ (ih h)

theorem lookupS_mem (l : List (String × ℚ)) (n : String) (v : ℚ)
    (h : lookupS n l = some v) : (n, v) ∈ l := by
  induction l with
  | nil => simp [lookupS] at h
  | cons p rest ih =>
    by_cases hp : p.1 = n
    · simp only [lookupS, hp, if_pos rfl] at h
      cases h
      rw [← hp]
      simp
    · simp only [lookupS, hp, if_neg, ite_false] at h
      exact List.mem_cons_of_mem _ (ih h)

/-! ## Range lemmas -/

theorem processed_value_bounds (r : List (Nat × Int))
    (h : ∀ p ∈ r, 1 ≤ p.2 ∧ p.2 ≤ 7) (k : Nat) (v : Int)
    (hl : lookupR k (reverseCode r) = some v) : 1 ≤ v ∧ v ≤ 7 := by
  rw [lookupR_reverseCode] at hl
  cases hE : lookupR k r with
  | none => rw [hE] at hl; simp at hl
  | some v0 =>
    rw [hE] at hl
    simp only [Option.map_some'] at hl
    have hb := h _ (lookupR_mem r k v0 hE)
    cases hl
    split <;> omega

theorem int_mean_bounds (l : List Int) (a b : Int) (hne : l ≠ [])
    (hA : ∀ x ∈ l, a ≤ x) (hB : ∀ x ∈ l, x ≤ b) :
    (a : ℚ) ≤ (l.sum : ℚ) / l.length ∧ (l.sum : ℚ) / l.length ≤ b := by
  have hpos : 0 < (l.length : ℚ) := by
    have := List.length_pos.mpr hne
    exact_mod_cast this
  have hub : l.sum ≤ l.length • b := List.sum_le_card_nsmul l b hB
  have hlb : l.length • a ≤ l.sum := List.card_nsmul_le_sum l a hA
  rw [nsmul_eq_mul] at hub hlb
  constructor
  · rw [le_div_iff₀ hpos, mul_comm]
    exact_mod_cast hlb
  · rw [div_le_iff₀ hpos, mul_comm]
    exact_mod_cast hub

theorem rat_mean_bounds (l : List ℚ) (a b : ℚ) (hne : l ≠ [])
    (hA : ∀ x ∈ l, a ≤ x) (hB : ∀ x ∈ l, x ≤ b) :
    a ≤ l.sum / l.length ∧ l.sum / l.length ≤ b := by
  have hpos : 0 < (l.length : ℚ) := by
    have := List.length_pos.mpr hne
    exact_mod_cast this
  have hub : l.sum ≤ l.length • b := List.sum_le_card_nsmul l b hB
  have hlb : l.length • a ≤ l.sum := List.card_nsmul_le_sum l a hA
  rw [nsmul_eq_mul] at hub hlb
  constructor
  · rw [le_div_iff₀ hpos, mul_comm]
    exact hlb
  · rw [div_le_iff₀ hpos, mul_comm]
    exact hub

theorem facet_score_bounds (proc : List (Nat × Int)) (fc : Facet)
    (h : ∀ k v, lookupR k proc = some v → 1 ≤ v ∧ v ≤ 7) :
    1 ≤ facet_score proc fc ∧ facet_score proc fc ≤ 7 := by
  unfold facet_score
  by_cases hE : (fc.items.filterMap (fun item => lookupR item proc)).isEmpty
  · simp only [hE, if_pos]
    norm_num
  · simp only [hE, Bool.false_eq_true, ite_false]
    have hne : fc.items.filterMap (fun item => lookupR item proc) ≠ [] := by
      intro hnil
      rw [hnil] at hE
      simp at hE
    have hmem : ∀ x ∈ fc.items.filterMap (fun item => lookupR item proc),
        1 ≤ x ∧ x ≤ 7 := by
      intro x hx
      rcases List.mem_filterMap.mp hx with ⟨item, _, hitem⟩
      exact h item x hitem
    have := int_mean_bounds (fc.items.filterMap (fun item => lookupR item proc))
      1 7 hne (fun x hx => (hmem x hx).1) (fun x hx => (hmem x hx).2)
    constructor
    · have h1 := this.1
      norm_num at h1 ⊢
      convert h1 using 2
    · have h2 := this.2
      norm_num at h2 ⊢
      convert h2 using 2

theorem facet_scores_of_bounds (r : List (Nat × Int))
    (hv : ∀ p ∈ r, 1 ≤ p.2 ∧ p.2 ≤ 7) :
    ∀ p ∈ facet_scores_of r, 1 ≤ p.2 ∧ p.2 ≤ 7 := by
  intro p hp
  unfold facet_scores_of at hp
  rcases List.mem_flatMap.mp hp with ⟨f, hf, hp2⟩
  rcases List.mem_map.mp hp2 with ⟨fc, hfc, rfl⟩
  exact facet_score_bounds _ fc (fun k v hl => processed_value_bounds r hv k v hl)

theorem factor_score_bounds (fsc : List (String × ℚ)) (f : Factor)
    (h : ∀ p ∈ fsc, 1 ≤ p.2 ∧ p.2 ≤ 7) :
    1 ≤ factor_score fsc f ∧ factor_score fsc f ≤ 7 := by
  unfold factor_score
  by_cases hE : ((f.facets.map (fun fc => fc.name)).filterMap (fun n => lookupS n fsc)).isEmpty
  · simp only [hE, if_pos]
    norm_num
  · simp only [hE, Bool.false_eq_true, ite_false]
    have hne : (f.facets.map (fun fc => fc.name)).filterMap (fun n => lookupS n fsc) ≠ [] := by
      intro hnil
      rw [hnil] at hE
      simp at hE
    have hmem : ∀ x ∈ (f.facets.map (fun fc => fc.name)).filterMap (fun n => lookupS n fsc),
        1 ≤ x ∧ x ≤ 7 := by
      intro x hx
      rcases List.mem_filterMap.mp hx with ⟨n, _, hn⟩
      exact h _ (lookupS_mem fsc n x hn)
    exact rat_mean_bounds _ 1 7 hne (fun x hx => (hmem x hx).1) (fun x hx => (hmem x hx).2)

theorem factor_scores_of_bounds (r : List (Nat × Int))
    (hv : ∀ p ∈ r, 1 ≤ p.2 ∧ p.2 ≤ 7) :
    ∀ p ∈ factor_scores_of r, 1 ≤ p.2 ∧ p.2 ≤ 7 := by
  intro p hp
  unfold factor_scores_of at hp
  rcases List.mem_map.mp hp with ⟨f, hf, rfl⟩
  exact factor_score_bounds _ f (facet_scores_of_bounds r hv)

/-! ## Agreement between the scorer's global reverse-coding pass and the
per-facet reverse coding the spec describes -/

theorem reverse_local_global : ∀ fc ∈ allFacets, ∀ i ∈ fc.items,
    (i ∈ allReverseItems ↔ i ∈ fc.reverse) := by decide

theorem facet_score_eq_spec (fc : Facet) (hfc : fc ∈ allFacets) (r : List (Nat × Int)) :
    facet_score (reverseCode r) fc = specFacetScore r fc := by
  unfold facet_score specFacetScore
  have hcong : fc.items.filterMap (fun item => lookupR item (reverseCode r)) =
      fc.items.filterMap (fun i =>
        (lookupR i r).map (fun v => if i ∈ fc.reverse then 8 - v else v)) := by
    apply List.filterMap_congr
    intro i hi
    rw [lookupR_reverseCode]
    have hiff := reverse_local_global fc hfc i hi
    cases lookupR i r with
    | none => rfl
    | some v =>
      simp only [Option.map_some']
      by_cases h : i ∈ fc.reverse
      · rw [if_pos h, if_pos (hiff.mpr h)]
      · rw [if_neg h, if_neg (fun hg => h (hiff.mp hg))]
  rw [hcong]

theorem flatMap_facets_map {α : Type} (l : List Factor) (g : Facet → α) :
    (l.flatMap (fun f => f.facets)).map g = l.flatMap (fun f => f.facets.map g) := by
  induction l with
  | nil => rfl
  | cons f rest ih => simp [List.flatMap_cons, ih]

theorem facet_scores_of_eq_spec (r : List (Nat × Int)) :
    facet_scores_of r = allFacets.map (fun fc => (fc.name, specFacetScore r fc)) := by
  unfold facet_scores_of allFacets
  rw [flatMap_facets_map]
  apply List.flatMap_congr
  intro f hf
  apply List.map_congr_left
  intro fc hfc
  rw [facet_score_eq_spec fc (List.mem_flatMap.mpr ⟨f, hf, hfc⟩)]

theorem factor_score_eq_spec (f : Factor) (hf : f ∈ scoring_structure) (r : List (Nat × Int)) :
    factor_score (facet_scores_of r) f = specFactorScore r f := by
  rw [facet_scores_of_eq_spec]
  simp only [scoring_structure, List.mem_cons, List.not_mem_nil, or_false] at hf
  rcases hf with rfl | rfl | rfl | rfl | rfl <;>
    simp [factor_score, allFacets, scoring_structure, lookupS, specFactorScore,
      factor1, factor2, factor3, factor4, factor5,
      fearOfPeople, nonsocialFear, fearOfDogs, fearOfHandling,
      generalAggression, situationalAggression,
      excitability, playfulness, activeEngagement, companionability,
      trainability, controllability,
      aggressionTowardsDogs, preyDrive, dominanceOverOtherDogs]

/-! ## Resolution of the score dictionaries at their concrete keys -/

theorem getScore_fearOfPeople (r : List (Nat × Int)) :
    getScore (facet_scores_of r) "Fear of People" = facet_score (reverseCode r) fearOfPeople := by
  simp [getScore, facet_scores_of, factor_scores_of, scoring_structure, lookupS, allFacets,
      factor1, factor2, factor3, factor4, factor5,
      fearOfPeople, nonsocialFear, fearOfDogs, fearOfHandling,
      generalAggression, situationalAggression,
      excitability, playfulness, activeEngagement, companionability,
      trainability, controllability,
      aggressionTowardsDogs, preyDrive, dominanceOverOtherDogs]

theorem getScore_nonsocialFear (r : List (Nat × Int)) :
    getScore (facet_scores_of r) "Nonsocial Fear" = facet_score (reverseCode r) nonsocialFear := by
  simp [getScore, facet_scores_of, factor_scores_of, scoring_structure, lookupS, allFacets,
      factor1, factor2, factor3, factor4, factor5,
      fearOfPeople, nonsocialFear, fearOfDogs, fearOfHandling,
      generalAggression, situationalAggression,
      excitability, playfulness, activeEngagement, companionability,
      trainability, controllability,
      aggressionTowardsDogs, preyDrive, dominanceOverOtherDogs]

theorem getScore_fearOfDogs (r : List (Nat × Int)) :
    getScore (facet_scores_of r) "Fear of Dogs" = facet_score (reverseCode r) fearOfDogs := by
  simp [getScore, facet_scores_of, factor_scores_of, scoring_structure, lookupS, allFacets,
      factor1, factor2, factor3, factor4, factor5,
      fearOfPeople, nonsocialFear, fearOfDogs, fearOfHandling,
      generalAggression, situationalAggression,
      excitability, playfulness, activeEngagement, companionability,
      trainability, controllability,
      aggressionTowardsDogs, preyDrive, dominanceOverOtherDogs]

theorem getScore_fearOfHandling (r : List (Nat × Int)) :
    getScore (facet_scores_of r) "Fear of Handling" =
      facet_score (reverseCode r) fearOfHandling := by
  simp [getScore, facet_scores_of, factor_scores_of, scoring_structure, lookupS, allFacets,
      factor1, factor2, factor3, factor4, factor5,
      fearOfPeople, nonsocialFear, fearOfDogs, fearOfHandling,
      generalAggression, situationalAggression,
      excitability, playfulness, activeEngagement, companionability,
      trainability, controllability,
      aggressionTowardsDogs, preyDrive, dominanceOverOtherDogs]

theorem getScore_generalAggression (r : List (Nat × Int)) :
    getScore (facet_scores_of r) "General Aggression" =
      facet_score (reverseCode r) generalAggression := by
  simp [getScore, facet_scores_of, factor_scores_of, scoring_structure, lookupS, allFacets,
      factor1, factor2, factor3, factor4, factor5,
      fearOfPeople, nonsocialFear, fearOfDogs, fearOfHandling,
      generalAggression, situationalAggression,
      excitability, playfulness, activeEngagement, companionability,
      trainability, controllability,
      aggressionTowardsDogs, preyDrive, dominanceOverOtherDogs]

theorem getScore_situationalAggression (r : List (Nat × Int)) :
    getScore (facet_scores_of r) "Situational Aggression" =
      facet_score (reverseCode r) situationalAggression := by
  simp [getScore, facet_scores_of, factor_scores_of, scoring_structure, lookupS, allFacets,
      factor1, factor2, factor3, factor4, factor5,
      fearOfPeople, nonsocialFear, fearOfDogs, fearOfHandling,
      generalAggression, situationalAggression,
      excitability, playfulness, activeEngagement, companionability,
      trainability, controllability,
      aggressionTowardsDogs, preyDrive, dominanceOverOtherDogs]

theorem getScore_excitability (r : List (Nat × Int)) :
    getScore (facet_scores_of r) "Excitability" = facet_score (reverseCode r) excitability := by
  simp [getScore, facet_scores_of, factor_scores_of, scoring_structure, lookupS, allFacets,
      factor1, factor2, factor3, factor4, factor5,
      fearOfPeople, nonsocialFear, fearOfDogs, fearOfHandling,
      generalAggression, situationalAggression,
      excitability, playfulness, activeEngagement, companionability,
      trainability, controllability,
      aggressionTowardsDogs, preyDrive, dominanceOverOtherDogs]

theorem getScore_playfulness (r : List (Nat × Int)) :
    getScore (facet_scores_of r) "Playfulness" = facet_score (reverseCode r) playfulness := by
  simp [getScore, facet_scores_of, factor_scores_of, scoring_structure, lookupS, allFacets,
      factor1, factor2, factor3, factor4, factor5,
      fearOfPeople, nonsocialFear, fearOfDogs, fearOfHandling,
      generalAggression, situationalAggression,
      excitability, playfulness, activeEngagement, companionability,
      trainability, controllability,
      aggressionTowardsDogs, preyDrive, dominanceOverOtherDogs]

theorem getScore_activeEngagement (r : List (Nat × Int)) :
    getScore (facet_scores_of r) "Active Engagement" =
      facet_score (reverseCode r) activeEngagement := by
  simp [getScore, facet_scores_of, factor_scores_of, scoring_structure, lookupS, allFacets,
      factor1, factor2, factor3, factor4, factor5,
      fearOfPeople, nonsocialFear, fearOfDogs, fearOfHandling,
      generalAggression, situationalAggression,
      excitability, playfulness, activeEngagement, companionability,
      trainability, controllability,
      aggressionTowardsDogs, preyDrive, dominanceOverOtherDogs]

theorem getScore_companionability (r : List (Nat × Int)) :
    getScore (facet_scores_of r) "Companionability" =
      facet_score (reverseCode r) companionability := by
  simp [getScore, facet_scores_of, factor_scores_of, scoring_structure, lookupS, allFacets,
      factor1, factor2, factor3, factor4, factor5,
      fearOfPeople, nonsocialFear, fearOfDogs, fearOfHandling,
      generalAggression, situationalAggression,
      excitability, playfulness, activeEngagement, companionability,
      trainability, controllability,
      aggressionTowardsDogs, preyDrive, dominanceOverOtherDogs]

theorem getScore_trainability (r : List (Nat × Int)) :
    getScore (facet_scores_of r) "Trainability" = facet_score (reverseCode r) trainability := by
  simp [getScore, facet_scores_of, factor_scores_of, scoring_structure, lookupS, allFacets,
      factor1, factor2, factor3, factor4, factor5,
      fearOfPeople, nonsocialFear, fearOfDogs, fearOfHandling,
      generalAggression, situationalAggression,
      excitability, playfulness, activeEngagement, companionability,
      trainability, controllability,
      aggressionTowardsDogs, preyDrive, dominanceOverOtherDogs]

theorem getScore_controllability (r : List (Nat × Int)) :
    getScore (facet_scores_of r) "Controllability" =
      facet_score (reverseCode r) controllability := by
  simp [getScore, facet_scores_of, factor_scores_of, scoring_structure, lookupS, allFacets,
      factor1, factor2, factor3, factor4, factor5,
      fearOfPeople, nonsocialFear, fearOfDogs, fearOfHandling,
      generalAggression, situationalAggression,
      excitability, playfulness, activeEngagement, companionability,
      trainability, controllability,
      aggressionTowardsDogs, preyDrive, dominanceOverOtherDogs]

theorem getScore_aggressionTowardsDogs (r : List (Nat × Int)) :
    getScore (facet_scores_of r) "Aggression towards Dogs" =
      facet_score (reverseCode r) aggressionTowardsDogs := by
  simp [getScore, facet_scores_of, factor_scores_of, scoring_structure, lookupS, allFacets,
      factor1, factor2, factor3, factor4, factor5,
      fearOfPeople, nonsocialFear, fearOfDogs, fearOfHandling,
      generalAggression, situationalAggression,
      excitability, playfulness, activeEngagement, companionability,
      trainability, controllability,
      aggressionTowardsDogs, preyDrive, dominanceOverOtherDogs]

theorem getScore_preyDrive (r : List (Nat × Int)) :
    getScore (facet_scores_of r) "Prey Drive" = facet_score (reverseCode r) preyDrive := by
  simp [getScore, facet_scores_of, factor_scores_of, scoring_structure, lookupS, allFacets,
      factor1, factor2, factor3, factor4, factor5,
      fearOfPeople, nonsocialFear, fearOfDogs, fearOfHandling,
      generalAggression, situationalAggression,
      excitability, playfulness, activeEngagement, companionability,
      trainability, controllability,
      aggressionTowardsDogs, preyDrive, dominanceOverOtherDogs]

theorem getScore_dominanceOverOtherDogs (r : List (Nat × Int)) :
    getScore (facet_scores_of r) "Dominance over Other Dogs" =
      facet_score (reverseCode r) dominanceOverOtherDogs := by
  simp [getScore, facet_scores_of, factor_scores_of, scoring_structure, lookupS, allFacets,
      factor1, factor2, factor3, factor4, factor5,
      fearOfPeople, nonsocialFear, fearOfDogs, fearOfHandling,
      generalAggression, situationalAggression,
      excitability, playfulness, activeEngagement, companionability,
      trainability, controllability,
      aggressionTowardsDogs, preyDrive, dominanceOverOtherDogs]

theorem getScore_factor1 (r : List (Nat × Int)) :
    getScore (factor_scores_of r) "Factor 1 - Fearfulness" =
      factor_score (facet_scores_of r) factor1 := by
  simp [getScore, facet_scores_of, factor_scores_of, scoring_structure, lookupS, allFacets,
      factor1, factor2, factor3, factor4, factor5,
      fearOfPeople, nonsocialFear, fearOfDogs, fearOfHandling,
      generalAggression, situationalAggression,
      excitability, playfulness, activeEngagement, companionability,
      trainability, controllability,
      aggressionTowardsDogs, preyDrive, dominanceOverOtherDogs]

theorem getScore_factor2 (r : List (Nat × Int)) :
    getScore (factor_scores_of r) "Factor 2 - Aggression towards People" =
      factor_score (facet_scores_of r) factor2 := by
  simp [getScore, facet_scores_of, factor_scores_of, scoring_structure, lookupS, allFacets,
      factor1, factor2, factor3, factor4, factor5,
      fearOfPeople, nonsocialFear, fearOfDogs, fearOfHandling,
      generalAggression, situationalAggression,
      excitability, playfulness, activeEngagement, companionability,
      trainability, controllability,
      aggressionTowardsDogs, preyDrive, dominanceOverOtherDogs]

theorem getScore_factor3 (r : List (Nat × Int)) :
    getScore (factor_scores_of r) "Factor 3 - Activity/Excitability" =
      factor_score (facet_scores_of r) factor3 := by
  simp [getScore, facet_scores_of, factor_scores_of, scoring_structure, lookupS, allFacets,
      factor1, factor2, factor3, factor4, factor5,
      fearOfPeople, nonsocialFear, fearOfDogs, fearOfHandling,
      generalAggression, situationalAggression,
      excitability, playfulness, activeEngagement, companionability,
      trainability, controllability,
      aggressionTowardsDogs, preyDrive, dominanceOverOtherDogs]

theorem getScore_factor4 (r : List (Nat × Int)) :
    getScore (factor_scores_of r) "Factor 4 - Responsiveness to Training" =
      factor_score (facet_scores_of r) factor4 := by
  simp [getScore, facet_scores_of, factor_scores_of, scoring_structure, lookupS, allFacets,
      factor1, factor2, factor3, factor4, factor5,
      fearOfPeople, nonsocialFear, fearOfDogs, fearOfHandling,
      generalAggression, situationalAggression,
      excitability, playfulness, activeEngagement, companionability,
      trainability, controllability,
      aggressionTowardsDogs, preyDrive, dominanceOverOtherDogs]

theorem getScore_factor5 (r : List (Nat × Int)) :
    getScore (factor_scores_of r) "Factor 5 - Aggression towards Animals" =
      factor_score (facet_scores_of r) factor5 := by
  simp [getScore, facet_scores_of, factor_scores_of, scoring_structure, lookupS, allFacets,
      factor1, factor2, factor3, factor4, factor5,
      fearOfPeople, nonsocialFear, fearOfDogs, fearOfHandling,
      generalAggression, situationalAggression,
      excitability, playfulness, activeEngagement, companionability,
      trainability, controllability,
      aggressionTowardsDogs, preyDrive, dominanceOverOtherDogs]

/-! ## Level classification and dominant-traits helpers -/

theorem levelOf_eq_high (s : ℚ) : levelOf s = "High" ↔ 5.5 ≤ s := by
  unfold levelOf
  split_ifs with h1 h2
  · exact iff_of_true rfl h1
  · exact iff_of_false (by decide) h1
  · exact iff_of_false (by decide) h1

theorem levelOf_eq_moderate (s : ℚ) : levelOf s = "Moderate" ↔ 4.5 ≤ s ∧ s < 5.5 := by
  unfold levelOf
  split_ifs with h1 h2
  · refine iff_of_false (by decide) ?_
    intro hc
    exact absurd hc.2 (not_lt.mpr h1)
  · exact iff_of_true rfl ⟨h2, lt_of_not_ge h1⟩
  · refine iff_of_false (by decide) ?_
    intro hc
    exact h2 hc.1

theorem levelOf_eq_low (s : ℚ) : levelOf s = "Low" ↔ s < 4.5 := by
  unfold levelOf
  split_ifs with h1 h2
  · refine iff_of_false (by decide) ?_
    intro hc
    have : (4.5 : ℚ) ≤ 5.5 := by norm_num
    exact absurd hc (not_lt.mpr (le_trans this h1))
  · exact iff_of_false (by decide) (not_lt.mpr h2)
  · exact iff_of_true rfl (lt_of_not_ge h2)

theorem intercalate_singleton_default (c : Prop) [Decidable c] (tags : List String) :
    String.intercalate ", " (if c then ["Balanced"] else tags) =
      if c then "Balanced" else String.intercalate ", " tags := by
  split
  · rfl
  · rfl

/-! ## Validation helpers -/

theorem check_response_entries_error (r : List (Nat × Int)) (p : Nat × Int)
    (hp : p ∈ r) (hbad : ¬(1 ≤ p.2 ∧ p.2 ≤ 7)) :
    ∃ msg, check_response_entries r = Except.error msg := by
  induction r with
  | nil => cases hp
  | cons q rest ih =>
    by_cases hq1 : 1 ≤ q.1 ∧ q.1 ≤ 45
    · by_cases hq2 : 1 ≤ q.2 ∧ q.2 ≤ 7
      · rcases List.mem_cons.mp hp with rfl | hp'
        · exact absurd hq2 hbad
        · rcases ih hp' with ⟨msg, hmsg⟩
          exact ⟨msg, by simp [check_response_entries, hq1, hq2, hmsg]⟩
      · exact ⟨"Invalid response value", by simp [check_response_entries, hq1, hq2]⟩
    · exact ⟨"Invalid question number", by simp [check_response_entries, hq1]⟩

/-! ## Invariance under ids outside the questionnaire -/

theorem lookupR_append_single (r : List (Nat × Int)) (k i : Nat) (v : Int) (hik : i ≠ k) :
    lookupR i (r ++ [(k, v)]) = lookupR i r := by
  induction r with
  | nil =>
    simp only [List.nil_append, lookupR]
    rw [if_neg (fun h : k = i => hik h.symm)]
  | cons p rest ih =>
    by_cases h : p.1 = i <;> simp [lookupR, h, ih]

theorem facet_items_in_range : ∀ fc ∈ allFacets, ∀ i ∈ fc.items, 1 ≤ i ∧ i ≤ 45 := by decide

theorem facet_score_append (r : List (Nat × Int)) (k : Nat) (v : Int)
    (hk : ¬(1 ≤ k ∧ k ≤ 45)) (fc : Facet) (hfc : fc ∈ allFacets) :
    facet_score (reverseCode (r ++ [(k, v)])) fc = facet_score (reverseCode r) fc := by
  unfold facet_score
  have hcong : fc.items.filterMap (fun item => lookupR item (reverseCode (r ++ [(k, v)]))) =
      fc.items.filterMap (fun item => lookupR item (reverseCode r)) := by
    apply List.filterMap_congr
    intro i hi
    rw [lookupR_reverseCode, lookupR_reverseCode, lookupR_append_single]
    have := facet_items_in_range fc hfc i hi
    omega
  rw [hcong]

theorem facet_scores_of_append (r : List (Nat × Int)) (k : Nat) (v : Int)
    (hk : ¬(1 ≤ k ∧ k ≤ 45)) :
    facet_scores_of (r ++ [(k, v)]) = facet_scores_of r := by
  unfold facet_scores_of
  apply List.flatMap_congr
  intro f hf
  apply List.map_congr_left
  intro fc hfc
  rw [facet_score_append r k v hk fc (List.mem_flatMap.mpr ⟨f, hf, hfc⟩)]

/-! ## Claim theorems -/

/-- C1: for every response set with keys in 1..45 and values in 1..7,
`score_assessment` computes every facet score as the arithmetic mean of the
reverse-coded values of that facet's items present in the input (defaulting
to exactly 4.0 when none is present), and every factor score as the
unweighted arithmetic mean of that factor's facet scores. -/
theorem score_assessment_facet_factor_means (r : List (Nat × Int)) (h : ValidResponses r) :
    (score_assessment r).facet_scores =
      allFacets.map (fun fc => (fc.name, specFacetScore r fc)) ∧
    (score_assessment r).factor_scores =
      scoring_structure.map (fun f => (f.name, specFactorScore r f)) := by
  constructor
  · exact facet_scores_of_eq_spec r
  · show factor_scores_of r = _
    unfold factor_scores_of
    apply List.map_congr_left
    intro f hf
    rw [factor_score_eq_spec f hf r]

/-- Witness for C1 at the all-4 questionnaire. -/
theorem score_assessment_facet_factor_means_witness :
    ValidResponses allFours ∧
    ((score_assessment allFours).facet_scores =
      allFacets.map (fun fc => (fc.name, specFacetScore allFours fc)) ∧
    (score_assessment allFours).factor_scores =
      scoring_structure.map (fun f => (f.name, specFactorScore allFours f))) :=
  ⟨by decide, score_assessment_facet_factor_means allFours (by decide)⟩

/-- C2: a response value `v` supplied on an item appearing in some facet's
reverse list enters the working copy the facet averages are computed from as
`8 - v`; on any other item it enters unchanged. -/
theorem reverse_coded_value_enters_average (r : List (Nat × Int)) (i : Nat) (v : Int)
    (h : ValidResponses r) (hl : lookupR i r = some v) :
    (i ∈ allReverseItems → lookupR i (reverseCode r) = some (8 - v)) ∧
    (i ∉ allReverseItems → lookupR i (reverseCode r) = some v) := by
  constructor <;> intro hm <;> rw [lookupR_reverseCode, hl] <;> simp [hm]

/-- Witness for C2 at the single-response set with item 1 (reverse coded)
answered 3. -/
theorem reverse_coded_value_enters_average_witness :
    ValidResponses [(1, 3)] ∧ lookupR 1 [(1, 3)] = some 3 ∧
    ((1 ∈ allReverseItems → lookupR 1 (reverseCode [(1, 3)]) = some (8 - 3)) ∧
     (1 ∉ allReverseItems → lookupR 1 (reverseCode [(1, 3)]) = some 3)) :=
  ⟨by decide, rfl, reverse_coded_value_enters_average [(1, 3)] 1 3 (by decide) rfl⟩

/-- C3: for every response set with keys in 1..45 and values in 1..7, every
factor and facet score of `score_assessment` lies in [1, 7] and every bias
indicator lies in [0, 1]. -/
theorem scores_and_bias_in_range (r : List (Nat × Int)) (h : ValidResponses r) :
    (∀ p ∈ (score_assessment r).factor_scores, 1 ≤ p.2 ∧ p.2 ≤ 7) ∧
    (∀ p ∈ (score_assessment r).facet_scores, 1 ≤ p.2 ∧ p.2 ≤ 7) ∧
    (∀ p ∈ (score_assessment r).bias_indicators, 0 ≤ p.2 ∧ p.2 ≤ 1) := by
  have hv : ∀ p ∈ r, 1 ≤ p.2 ∧ p.2 ≤ 7 := fun p hp => ⟨(h.2 p hp).2.2.1, (h.2 p hp).2.2.2⟩
  refine ⟨factor_scores_of_bounds r hv, facet_scores_of_bounds r hv, ?_⟩
  have hfacB := facet_scores_of_bounds r hv
  have hprocB : ∀ k v, lookupR k (reverseCode r) = some v → 1 ≤ v ∧ v ≤ 7 :=
    fun k v hl => processed_value_bounds r hv k v hl
  have hF1 := factor_score_bounds (facet_scores_of r) factor1 hfacB
  have hF2 := factor_score_bounds (facet_scores_of r) factor2 hfacB
  have hF3 := factor_score_bounds (facet_scores_of r) factor3 hfacB
  have hF4 := factor_score_bounds (facet_scores_of r) factor4 hfacB
  have hF5 := factor_score_bounds (facet_scores_of r) factor5 hfacB
  have hfop := facet_score_bounds (reverseCode r) fearOfPeople hprocB
  have hnsf := facet_score_bounds (reverseCode r) nonsocialFear hprocB
  have hfod := facet_score_bounds (reverseCode r) fearOfDogs hprocB
  have hfoh := facet_score_bounds (reverseCode r) fearOfHandling hprocB
  have hga := facet_score_bounds (reverseCode r) generalAggression hprocB
  have hsa := facet_score_bounds (reverseCode r) situationalAggression hprocB
  have hexc := facet_score_bounds (reverseCode r) excitability hprocB
  have hpl := facet_score_bounds (reverseCode r) playfulness hprocB
  have hae := facet_score_bounds (reverseCode r) activeEngagement hprocB
  have hcmp := facet_score_bounds (reverseCode r) companionability hprocB
  have hctl := facet_score_bounds (reverseCode r) controllability hprocB
  have hpd := facet_score_bounds (reverseCode r) preyDrive hprocB
  intro p hp
  simp only [score_assessment, calculate_bias_indicators, List.mem_cons,
    List.not_mem_nil, or_false] at hp
  rcases hp with rfl | rfl | rfl | rfl | rfl | rfl | rfl | rfl | rfl | rfl | rfl | rfl | rfl | rfl <;>
    simp only [getScore_factor1, getScore_factor2, getScore_factor3, getScore_factor4,
      getScore_factor5, getScore_fearOfPeople, getScore_nonsocialFear, getScore_fearOfDogs,
      getScore_fearOfHandling, getScore_generalAggression, getScore_situationalAggression,
      getScore_excitability, getScore_playfulness, getScore_activeEngagement,
      getScore_companionability, getScore_controllability, getScore_preyDrive] <;>
    constructor <;> linarith [hF1.1, hF1.2, hF2.1, hF2.2, hF3.1, hF3.2, hF4.1, hF4.2,
      hF5.1, hF5.2, hfop.1, hfop.2, hnsf.1, hnsf.2, hfod.1, hfod.2, hfoh.1, hfoh.2,
      hga.1, hga.2, hsa.1, hsa.2, hexc.1, hexc.2, hpl.1, hpl.2, hae.1, hae.2,
      hcmp.1, hcmp.2, hctl.1, hctl.2, hpd.1, hpd.2]

/-- Witness for C3 at the all-4 questionnaire. -/
theorem scores_and_bias_in_range_witness :
    ValidResponses allFours ∧
    ((∀ p ∈ (score_assessment allFours).factor_scores, 1 ≤ p.2 ∧ p.2 ≤ 7) ∧
    (∀ p ∈ (score_assessment allFours).facet_scores, 1 ≤ p.2 ∧ p.2 ≤ 7) ∧
    (∀ p ∈ (score_assessment allFours).bias_indicators, 0 ≤ p.2 ∧ p.2 ≤ 1)) :=
  ⟨by decide, scores_and_bias_in_range allFours (by decide)⟩

/-- C4: an assessment submitted with zero responses fails
`DPQService._validate_responses`, so the service raises before any scoring
happens and no result — in particular no all-midpoint result — is returned. -/
theorem empty_responses_rejected :
    validate_responses [] = false ∧
    service_process_assessment [] =
      Except.error "Invalid response format or missing required responses" ∧
    (service_process_assessment []).isOk = false := ⟨rfl, rfl, rfl⟩

/-- C5: any response entry whose value is not in 1..7 makes the validation
loop of `_run_dpq_analysis` raise before any scoring, so no result is
produced, and it also fails `DPQService._validate_responses`. -/
theorem invalid_response_value_rejected (r : List (Nat × Int)) (p : Nat × Int)
    (hp : p ∈ r) (hbad : ¬(1 ≤ p.2 ∧ p.2 ≤ 7)) :
    (∃ msg, run_dpq_analysis r = Except.error msg) ∧
    (run_dpq_analysis r).isOk = false ∧
    validate_responses r = false := by
  obtain ⟨msg, hmsg⟩ := check_response_entries_error r p hp hbad
  refine ⟨⟨msg, by simp [run_dpq_analysis, hmsg]⟩,
    by simp [run_dpq_analysis, hmsg, Except.isOk, Except.toBool], ?_⟩
  unfold validate_responses
  have hne : r ≠ [] := by
    intro hnil
    rw [hnil] at hp
    cases hp
  rw [if_neg (by simp [hne])]
  apply List.all_eq_false.mpr
  refine ⟨p, hp, ?_⟩
  simp only [decide_eq_true_eq]
  omega

/-- Witness for C5 at the single-response set answering item 1 with 9. -/
theorem invalid_response_value_rejected_witness :
    (1, (9 : Int)) ∈ [((1 : Nat), (9 : Int))] ∧ ¬(1 ≤ (9 : Int) ∧ (9 : Int) ≤ 7) ∧
    ((∃ msg, run_dpq_analysis [(1, 9)] = Except.error msg) ∧
     (run_dpq_analysis [(1, 9)]).isOk = false ∧
     validate_responses [(1, 9)] = false) :=
  ⟨by decide, by decide,
    invalid_response_value_rejected [(1, 9)] (1, 9) (by decide) (by decide)⟩

/-- C6: the personality profile maps each factor to "High" iff its score is
at least 5.5, "Moderate" iff it is in [4.5, 5.5), and "Low" iff it is below
4.5; the `Dominant_Traits` entry is the comma-joined list, in factor
declaration order, of the fixed tag of every factor scoring at least 5.0,
or "Balanced" when none does. -/
theorem personality_profile_levels_and_dominant_traits (r : List (Nat × Int))
    (h : ValidResponses r) :
    (∀ p ∈ (score_assessment r).factor_scores,
      (lookupP p.1 (score_assessment r).personality_profile = some "High" ↔ 5.5 ≤ p.2) ∧
      (lookupP p.1 (score_assessment r).personality_profile = some "Moderate" ↔
        4.5 ≤ p.2 ∧ p.2 < 5.5) ∧
      (lookupP p.1 (score_assessment r).personality_profile = some "Low" ↔ p.2 < 4.5)) ∧
    lookupP "Dominant_Traits" (score_assessment r).personality_profile =
      some (if (((score_assessment r).factor_scores.zip
            ["Cautious/Fearful", "Protective/Aggressive", "Energetic/Excitable",
             "Trainable/Responsive", "Animal-Reactive"]).filterMap
            (fun q => if q.1.2 ≥ 5 then some q.2 else none)).isEmpty
          then "Balanced"
          else String.intercalate ", " (((score_assessment r).factor_scores.zip
            ["Cautious/Fearful", "Protective/Aggressive", "Energetic/Excitable",
             "Trainable/Responsive", "Animal-Reactive"]).filterMap
            (fun q => if q.1.2 ≥ 5 then some q.2 else none))) := by
  constructor
  · intro p hp
    simp only [score_assessment, factor_scores_of, scoring_structure, List.map_cons,
      List.map_nil, List.mem_cons, List.not_mem_nil, or_false] at hp
    rcases hp with rfl | rfl | rfl | rfl | rfl <;>
      simp [score_assessment, generate_personality_profile, factor_scores_of,
        scoring_structure, factor1, factor2, factor3, factor4, factor5, lookupP,
        levelOf_eq_high, levelOf_eq_moderate, levelOf_eq_low]
  · have hlook : lookupP "Dominant_Traits" (score_assessment r).personality_profile =
        some (dominantTraits (factor_scores_of r)) := by
      simp [score_assessment, generate_personality_profile, factor_scores_of,
        scoring_structure, factor1, factor2, factor3, factor4, factor5, lookupP]
    have htags : tagDefs.filterMap
          (fun p => if getScore (factor_scores_of r) p.1 ≥ 5 then some p.2 else none) =
        ((score_assessment r).factor_scores.zip
          ["Cautious/Fearful", "Protective/Aggressive", "Energetic/Excitable",
           "Trainable/Responsive", "Animal-Reactive"]).filterMap
          (fun q => if q.1.2 ≥ 5 then some q.2 else none) := by
      simp [tagDefs, score_assessment, factor_scores_of, scoring_structure,
        factor1, factor2, factor3, factor4, factor5, getScore, lookupS,
        List.filterMap_cons, List.zip_cons_cons]
    rw [hlook]
    simp only [dominantTraits, intercalate_singleton_default, htags]

/-- Witness for C6 at the all-4 questionnaire. -/
theorem personality_profile_levels_and_dominant_traits_witness :
    ValidResponses allFours ∧
    ((∀ p ∈ (score_assessment allFours).factor_scores,
      (lookupP p.1 (score_assessment allFours).personality_profile = some "High" ↔ 5.5 ≤ p.2) ∧
      (lookupP p.1 (score_assessment allFours).personality_profile = some "Moderate" ↔
        4.5 ≤ p.2 ∧ p.2 < 5.5) ∧
      (lookupP p.1 (score_assessment allFours).personality_profile = some "Low" ↔ p.2 < 4.5)) ∧
    lookupP "Dominant_Traits" (score_assessment allFours).personality_profile =
      some (if (((score_assessment allFours).factor_scores.zip
            ["Cautious/Fearful", "Protective/Aggressive", "Energetic/Excitable",
             "Trainable/Responsive", "Animal-Reactive"]).filterMap
            (fun q => if q.1.2 ≥ 5 then some q.2 else none)).isEmpty
          then "Balanced"
          else String.intercalate ", " (((score_assessment allFours).factor_scores.zip
            ["Cautious/Fearful", "Protective/Aggressive", "Energetic/Excitable",
             "Trainable/Responsive", "Animal-Reactive"]).filterMap
            (fun q => if q.1.2 ≥ 5 then some q.2 else none)))) :=
  ⟨by decide, personality_profile_levels_and_dominant_traits allFours (by decide)⟩

/-- C7: for every response set, the result carries exactly the 5 factor
names, the 15 facet names, the 14 bias-indicator names and the 6
personality-profile keys, in order, and echoes the caller's input in
`raw_scores`. -/
theorem result_field_names_and_raw_echo (r : List (Nat × Int)) :
    (score_assessment r).factor_scores.map Prod.fst =
      ["Factor 1 - Fearfulness", "Factor 2 - Aggression towards People",
       "Factor 3 - Activity/Excitability", "Factor 4 - Responsiveness to Training",
       "Factor 5 - Aggression towards Animals"] ∧
    (score_assessment r).facet_scores.map Prod.fst =
      ["Fear of People", "Nonsocial Fear", "Fear of Dogs", "Fear of Handling",
       "General Aggression", "Situational Aggression",
       "Excitability", "Playfulness", "Active Engagement", "Companionability",
       "Trainability", "Controllability",
       "Aggression towards Dogs", "Prey Drive", "Dominance over Other Dogs"] ∧
    (score_assessment r).bias_indicators.map Prod.fst =
      ["fearfulness_bias", "aggression_bias", "excitability_bias", "trainability_bias",
       "social_confidence", "dog_sociability", "environmental_adaptability",
       "handling_tolerance", "attention_seeking", "activity_level", "impulse_control",
       "territorial_tendency", "resource_guarding", "prey_drive"] ∧
    (score_assessment r).personality_profile.map Prod.fst =
      ["Factor 1 - Fearfulness", "Factor 2 - Aggression towards People",
       "Factor 3 - Activity/Excitability", "Factor 4 - Responsiveness to Training",
       "Factor 5 - Aggression towards Animals", "Dominant_Traits"] ∧
    (score_assessment r).raw_scores = r := by
  refine ⟨?_, ?_, ?_, ?_, rfl⟩ <;>
    simp [score_assessment, factor_scores_of, facet_scores_of, calculate_bias_indicators,
      generate_personality_profile, scoring_structure,
      factor1, factor2, factor3, factor4, factor5,
      fearOfPeople, nonsocialFear, fearOfDogs, fearOfHandling,
      generalAggression, situationalAggression,
      excitability, playfulness, activeEngagement, companionability,
      trainability, controllability,
      aggressionTowardsDogs, preyDrive, dominanceOverOtherDogs]

/-- C8: the 15 facets' item lists partition the ids 1..45 exactly, every
facet's reverse list is contained in its item list, and exactly 14 distinct
ids are reverse coded. -/
theorem scoring_structure_partition_invariants :
    allFacets.length = 15 ∧
    (allFacets.flatMap (fun fc => fc.items)).Perm (List.range' 1 45) ∧
    (∀ fc ∈ allFacets, ∀ i ∈ fc.reverse, i ∈ fc.items) ∧
    allReverseItems.Nodup ∧ allReverseItems.length = 14 := by decide

/-- C9: extending a valid response set by an entry whose id lies outside
1..45 changes none of the factor scores, facet scores, personality profile
or bias indicators, and raises no error (`score_assessment` is total). -/
theorem out_of_range_id_ignored (r : List (Nat × Int)) (k : Nat) (v : Int)
    (h : ValidResponses r) (hk : ¬(1 ≤ k ∧ k ≤ 45)) (hv : 1 ≤ v ∧ v ≤ 7) :
    (score_assessment (r ++ [(k, v)])).factor_scores = (score_assessment r).factor_scores ∧
    (score_assessment (r ++ [(k, v)])).facet_scores = (score_assessment r).facet_scores ∧
    (score_assessment (r ++ [(k, v)])).personality_profile =
      (score_assessment r).personality_profile ∧
    (score_assessment (r ++ [(k, v)])).bias_indicators =
      (score_assessment r).bias_indicators := by
  have hfac : facet_scores_of (r ++ [(k, v)]) = facet_scores_of r :=
    facet_scores_of_append r k v hk
  have hfs : factor_scores_of (r ++ [(k, v)]) = factor_scores_of r := by
    unfold factor_scores_of
    rw [hfac]
  exact ⟨hfs, hfac, by simp [score_assessment, hfs], by simp [score_assessment, hfs, hfac]⟩

/-- Witness for C9: appending id 46 to the all-4 questionnaire. -/
theorem out_of_range_id_ignored_witness :
    ValidResponses allFours ∧ ¬(1 ≤ (46 : Nat) ∧ (46 : Nat) ≤ 45) ∧
    (1 ≤ (4 : Int) ∧ (4 : Int) ≤ 7) ∧
    ((score_assessment (allFours ++ [(46, 4)])).factor_scores =
      (score_assessment allFours).factor_scores ∧
    (score_assessment (allFours ++ [(46, 4)])).facet_scores =
      (score_assessment allFours).facet_scores ∧
    (score_assessment (allFours ++ [(46, 4)])).personality_profile =
      (score_assessment allFours).personality_profile ∧
    (score_assessment (allFours ++ [(46, 4)])).bias_indicators =
      (score_assessment allFours).bias_indicators) :=
  ⟨by decide, by decide, by decide,
    out_of_range_id_ignored allFours 46 4 (by decide) (by decide) (by decide)⟩

/-- C10: because every facet and factor score is at least 1, the inverse
indicators social_confidence, environmental_adaptability and
handling_tolerance never exceed 6/7 (so never reach 1.0), and
fearfulness_bias is at least 1/7 (so never reaches 0.0). -/
theorem bias_indicators_attainable_range (r : List (Nat × Int)) (h : ValidResponses r) :
    (∀ b, lookupS "social_confidence" (score_assessment r).bias_indicators = some b →
      b ≤ 6 / 7 ∧ b ≠ 1) ∧
    (∀ b, lookupS "fearfulness_bias" (score_assessment r).bias_indicators = some b →
      1 / 7 ≤ b ∧ b ≠ 0) ∧
    (∀ b, lookupS "environmental_adaptability" (score_assessment r).bias_indicators = some b →
      b ≤ 6 / 7) ∧
    (∀ b, lookupS "handling_tolerance" (score_assessment r).bias_indicators = some b →
      b ≤ 6 / 7) := by
  have hv : ∀ p ∈ r, 1 ≤ p.2 ∧ p.2 ≤ 7 := fun p hp => ⟨(h.2 p hp).2.2.1, (h.2 p hp).2.2.2⟩
  have hfacB := facet_scores_of_bounds r hv
  have hprocB : ∀ k v, lookupR k (reverseCode r) = some v → 1 ≤ v ∧ v ≤ 7 :=
    fun k v hl => processed_value_bounds r hv k v hl
  have hF1 := factor_score_bounds (facet_scores_of r) factor1 hfacB
  have hfop := facet_score_bounds (reverseCode r) fearOfPeople hprocB
  have hnsf := facet_score_bounds (reverseCode r) nonsocialFear hprocB
  have hfoh := facet_score_bounds (reverseCode r) fearOfHandling hprocB
  have hsc : lookupS "social_confidence" (score_assessment r).bias_indicators =
      some ((7 - facet_score (reverseCode r) fearOfPeople) / 7) := by
    simp [score_assessment, calculate_bias_indicators, lookupS, getScore_fearOfPeople]
  have hfb : lookupS "fearfulness_bias" (score_assessment r).bias_indicators =
      some (factor_score (facet_scores_of r) factor1 / 7) := by
    simp [score_assessment, calculate_bias_indicators, lookupS, getScore_factor1]
  have hea : lookupS "environmental_adaptability" (score_assessment r).bias_indicators =
      some ((7 - facet_score (reverseCode r) nonsocialFear) / 7) := by
    simp [score_assessment, calculate_bias_indicators, lookupS, getScore_nonsocialFear]
  have hht : lookupS "handling_tolerance" (score_assessment r).bias_indicators =
      some ((7 - facet_score (reverseCode r) fearOfHandling) / 7) := by
    simp [score_assessment, calculate_bias_indicators, lookupS, getScore_fearOfHandling]
  refine ⟨?_, ?_, ?_, ?_⟩ <;> intro b hb
  · rw [hsc, Option.some_inj] at hb
    subst hb
    have hle : (7 - facet_score (reverseCode r) fearOfPeople) / 7 ≤ 6 / 7 := by
      linarith [hfop.1]
    exact ⟨hle, ne_of_lt (lt_of_le_of_lt hle (by norm_num))⟩
  · rw [hfb, Option.some_inj] at hb
    subst hb
    have hge : 1 / 7 ≤ factor_score (facet_scores_of r) factor1 / 7 := by
      linarith [hF1.1]
    exact ⟨hge, ne_of_gt (lt_of_lt_of_le (by norm_num) hge)⟩
  · rw [hea, Option.some_inj] at hb
    subst hb
    linarith [hnsf.1]
  · rw [hht, Option.some_inj] at hb
    subst hb
    linarith [hfoh.1]

/-- Witness for C10 at the all-4 questionnaire. -/
theorem bias_indicators_attainable_range_witness :
    ValidResponses allFours ∧
    ((∀ b, lookupS "social_confidence" (score_assessment allFours).bias_indicators = some b →
      b ≤ 6 / 7 ∧ b ≠ 1) ∧
    (∀ b, lookupS "fearfulness_bias" (score_assessment allFours).bias_indicators = some b →
      1 / 7 ≤ b ∧ b ≠ 0) ∧
    (∀ b, lookupS "environmental_adaptability"
        (score_assessment allFours).bias_indicators = some b → b ≤ 6 / 7) ∧
    (∀ b, lookupS "handling_tolerance" (score_assessment allFours).bias_indicators = some b →
      b ≤ 6 / 7)) :=
  ⟨by decide, bias_indicators_attainable_range allFours (by decide)⟩

end DPQ
